import Mathlib

/-!
# StaffFlow simulation and rebalancing core: a shallow embedding

This development embeds the simulation/rebalancing core of the StaffFlow
repository (src/server/sampleData.ts, src/server/rebalancer.ts,
src/server/simulationEngine.ts, src/server/nameGenerator.ts) into Lean and
proves properties of the embedded definitions.

Modelling conventions:
* JavaScript numbers holding integral quantities (acuity, workload, capacity
  limits, patient counts) are modelled as `Int`; quantities that are genuinely
  fractional (probabilities, utilization ratios, averages) are modelled as `ℚ`.
  All fractional constants appearing in the source (0.6, 0.7, 0.3, ...) are
  exactly representable, and every comparison instantiated in this file is
  evaluated far from representation boundaries, so `ℚ` matches the source's
  float semantics on everything proved here.
* `Math.random()` is modelled by an explicit oracle: a stream `Nat → ℚ` of
  draws consumed in program order (each call site consumes the next index),
  together with a `now` value standing for `Date.now()`.
* In-place mutation is modelled by explicit state passing; functions of the
  source that mutate their arguments are embedded as functions returning the
  post-call value of those arguments (see `generateRebalancingSuggestions`,
  which returns both the suggestion list and the post-call assignment list).
* `Patient.assignedNurseId` is a write-only field in the engine (it is
  assigned by the solver and the initializer but never read by any simulation
  logic), so it is omitted from the embedded `Patient` record.
-/

set_option maxHeartbeats 4000000
set_option maxRecDepth 10000

/-- Patient record (src/server/sampleData.ts).  The write-only
`assignedNurseId` field is omitted (never read by the engine). -/
structure Patient where
  id : String
  name : String
  acuity : Int
  condition : String
  requiredSkills : List String
  unit : String
  deriving Repr, DecidableEq, Inhabited

/-- One break inside a shift descriptor (src/server/sampleData.ts). -/
structure ShiftBreak where
  type : String
  startTime : String
  endTime : String
  duration : Int
  deriving Repr, DecidableEq, Inhabited

/-- Shift descriptor of a staff member (src/server/sampleData.ts). -/
structure Shift where
  shiftType : String
  startTime : String
  endTime : String
  breaks : List ShiftBreak
  hoursWorked : Int
  deriving Repr, DecidableEq, Inhabited

/-- Staff member record (src/server/sampleData.ts). -/
structure StaffMember where
  id : String
  name : String
  qualifications : List String
  maxPatients : Int
  maxWorkload : Int
  unit : String
  shift : Shift
  deriving Repr, DecidableEq, Inhabited

/-- Assignment record (src/server/rebalancer.ts). -/
structure Assignment where
  nurseId : String
  nurseName : String
  unit : String
  qualifications : List String
  patients : List Patient
  workload : Int
  maxWorkload : Int
  maxPatients : Int
  isOverloaded : Bool
  alert : String
  shift : Shift
  deriving Repr, DecidableEq, Inhabited

/-- Rebalancing suggestion record (src/server/rebalancer.ts). -/
structure RebalancingSuggestion where
  fromNurseId : String
  fromNurseName : String
  toNurseId : String
  toNurseName : String
  patientId : String
  patientName : String
  reason : String
  expectedFromWorkload : Int
  expectedToWorkload : Int
  skillMatch : Bool
  deriving Repr, DecidableEq, Inhabited

/-- Shared morning shift literal used by several roster entries. -/
def morningShift : Shift :=
  { shiftType := "morning", startTime := "06:00", endTime := "14:00",
    breaks := [
      { type := "lunch", startTime := "10:00", endTime := "10:30", duration := 30 },
      { type := "short", startTime := "08:00", endTime := "08:15", duration := 15 },
      { type := "short", startTime := "12:00", endTime := "12:15", duration := 15 }],
    hoursWorked := 8 }

/-- Shared afternoon shift literal used by several roster entries. -/
def afternoonShift : Shift :=
  { shiftType := "afternoon", startTime := "14:00", endTime := "22:00",
    breaks := [
      { type := "lunch", startTime := "18:00", endTime := "18:30", duration := 30 },
      { type := "short", startTime := "16:00", endTime := "16:15", duration := 15 },
      { type := "short", startTime := "20:00", endTime := "20:15", duration := 15 }],
    hoursWorked := 8 }

/-- Shared night shift literal used by several roster entries. -/
def nightShift : Shift :=
  { shiftType := "night", startTime := "22:00", endTime := "06:00",
    breaks := [
      { type := "lunch", startTime := "02:00", endTime := "02:30", duration := 30 },
      { type := "short", startTime := "00:00", endTime := "00:15", duration := 15 },
      { type := "short", startTime := "04:00", endTime := "04:15", duration := 15 }],
    hoursWorked := 8 }

/-- The static staff roster STATIC_STAFF (src/server/sampleData.ts). -/
def STATIC_STAFF : List StaffMember := [
  { id := "nurse-001", name := "Sarah Johnson", qualifications := ["ICU", "ER"],
    maxPatients := 3, maxWorkload := 8, unit := "ICU", shift := morningShift },
  { id := "nurse-002", name := "Michael Chen", qualifications := ["ICU", "MEDSURG"],
    maxPatients := 4, maxWorkload := 9, unit := "ICU", shift := afternoonShift },
  { id := "nurse-003", name := "Emma Rodriguez", qualifications := ["ER", "MEDSURG"],
    maxPatients := 5, maxWorkload := 10, unit := "ER", shift := morningShift },
  { id := "nurse-004", name := "James Wilson", qualifications := ["ER", "ICU"],
    maxPatients := 4, maxWorkload := 8, unit := "ER", shift := nightShift },
  { id := "nurse-005", name := "Lisa Thompson", qualifications := ["MEDSURG", "PEDS"],
    maxPatients := 4, maxWorkload := 8, unit := "MEDSURG", shift := afternoonShift },
  { id := "nurse-006", name := "David Martinez", qualifications := ["PEDS", "MEDSURG"],
    maxPatients := 3, maxWorkload := 7, unit := "PEDS", shift := morningShift },
  { id := "nurse-007", name := "Amanda Lee", qualifications := ["ICU", "ER", "MEDSURG"],
    maxPatients := 4, maxWorkload := 9, unit := "ICU", shift := nightShift },
  { id := "nurse-008", name := "Robert Garcia", qualifications := ["MEDSURG", "ER"],
    maxPatients := 5, maxWorkload := 10, unit := "MEDSURG", shift := morningShift },
  { id := "nurse-009", name := "Jennifer Brown", qualifications := ["PEDS", "MEDSURG"],
    maxPatients := 4, maxWorkload := 8, unit := "PEDS", shift := afternoonShift },
  { id := "nurse-010", name := "Christopher Davis", qualifications := ["ER", "ICU"],
    maxPatients := 3, maxWorkload := 8, unit := "ER", shift := afternoonShift }]

/-- Sum of patient acuities: the `reduce((sum, p) => sum + p.acuity, 0)`
pattern used throughout the source. -/
def sumAcuity (ps : List Patient) : Int :=
  ps.foldl (fun s p => s + p.acuity) 0

/-- The unit enumeration used by the engine. -/
def SIM_UNITS : List String := ["ICU", "ER", "MEDSURG", "PEDS"]

/-! ## Assignment solver (src/server/rebalancer.ts, assignPatientsToNurses) -/

/-- Nurse tracking record: the `{ ...nurse, assignedPatients: [], currentWorkload: 0 }`
copies built at the top of `assignPatientsToNurses`. -/
structure TrackedNurse where
  id : String
  name : String
  qualifications : List String
  maxPatients : Int
  maxWorkload : Int
  unit : String
  shift : Shift
  assignedPatients : List Patient
  currentWorkload : Int
  deriving Repr, DecidableEq, Inhabited

/-- Build the tracking copies of the staff list. -/
def mkTracked (staff : List StaffMember) : List TrackedNurse :=
  staff.map (fun n =>
    { id := n.id, name := n.name, qualifications := n.qualifications,
      maxPatients := n.maxPatients, maxWorkload := n.maxWorkload,
      unit := n.unit, shift := n.shift,
      assignedPatients := [], currentWorkload := 0 })

/-- Insert a patient into a list sorted by descending acuity, after all
strictly-higher entries and before equal ones (the position a stable sort
with comparator `(a, b) => b.acuity - a.acuity` gives it). -/
def insertByAcuityDesc (p : Patient) : List Patient → List Patient
  | [] => [p]
  | q :: t => if p.acuity < q.acuity then q :: insertByAcuityDesc p t else p :: q :: t

/-- Stable sort of patients by descending acuity:
`[...patients].sort((a, b) => b.acuity - a.acuity)`. -/
def sortByAcuityDesc (ps : List Patient) : List Patient :=
  ps.foldr insertByAcuityDesc []

/-- Indices of nurses qualified for the patient's unit with remaining
workload and patient-count capacity (the `qualifiedNurses` filter). -/
def qualifiedIdxs (tracked : List TrackedNurse) (p : Patient) : List Nat :=
  (List.range tracked.length).filter (fun i =>
    let n := tracked.getD i default
    n.qualifications.contains p.unit &&
      decide (n.currentWorkload < n.maxWorkload) &&
      decide ((n.assignedPatients.length : Int) < n.maxPatients))

/-- Indices of nurses with remaining capacity regardless of skill
(the `availableNurses` fallback filter). -/
def availableIdxs (tracked : List TrackedNurse) : List Nat :=
  (List.range tracked.length).filter (fun i =>
    let n := tracked.getD i default
    decide (n.currentWorkload < n.maxWorkload) &&
      decide ((n.assignedPatients.length : Int) < n.maxPatients))

/-- The `reduce((prev, current) => prev.currentWorkload < current.currentWorkload
? prev : current)` selection over a pool of indices. -/
def chooseBestIdx (tracked : List TrackedNurse) : List Nat → Option Nat
  | [] => none
  | i :: t => some (t.foldl (fun prev cur =>
      if (tracked.getD prev default).currentWorkload <
         (tracked.getD cur default).currentWorkload then prev else cur) i)

/-- `bestNurse.assignedPatients.push(patient); bestNurse.currentWorkload += patient.acuity`. -/
def pushPatient (tracked : List TrackedNurse) (i : Nat) (p : Patient) : List TrackedNurse :=
  tracked.set i
    (let n := tracked.getD i default
     { n with assignedPatients := n.assignedPatients ++ [p],
              currentWorkload := n.currentWorkload + p.acuity })

/-- One iteration of the patient-assignment loop. -/
def assignOne (tracked : List TrackedNurse) (p : Patient) : List TrackedNurse :=
  match chooseBestIdx tracked (qualifiedIdxs tracked p) with
  | some i => pushPatient tracked i p
  | none =>
    match chooseBestIdx tracked (availableIdxs tracked) with
    | some i => pushPatient tracked i p
    | none => tracked

/-- Turn a final tracking record into an `Assignment`. -/
def finalizeAssignment (n : TrackedNurse) : Assignment :=
  let isOverloaded :=
    decide (n.currentWorkload > n.maxWorkload) ||
    decide ((n.assignedPatients.length : Int) > n.maxPatients)
  let alert :=
    if (n.assignedPatients.length : Int) > n.maxPatients then "Too many patients!"
    else if n.currentWorkload > n.maxWorkload then "Workload too high!"
    else ""
  { nurseId := n.id, nurseName := n.name, unit := n.unit,
    qualifications := n.qualifications, patients := n.assignedPatients,
    workload := n.currentWorkload, maxWorkload := n.maxWorkload,
    maxPatients := n.maxPatients, isOverloaded := isOverloaded,
    alert := alert, shift := n.shift }

/-- The assignment solver `assignPatientsToNurses` (src/server/rebalancer.ts
lines 33-115): greedy assignment of patients, most acute first, each to the
pool member with the lowest current workload. -/
def assignPatientsToNurses (patients : List Patient) (staff : List StaffMember) :
    List Assignment :=
  ((sortByAcuityDesc patients).foldl assignOne (mkTracked staff)).map finalizeAssignment

/-! ## Imbalance detector (src/server/rebalancer.ts, generateRebalancingSuggestions)

The source function mutates the target assignments of the suggestions it
emits (`targetNurse.workload += patient.acuity; targetNurse.patients.push(patient)`
act on elements of the input array, not on copies).  The embedding therefore
returns a pair: the suggestions together with the post-call value of the
input assignment list. -/

/-- Indices of underutilized helpers for one overloaded nurse:
workload strictly below 60% of capacity, patient-count headroom, not the
overloaded nurse itself. -/
def underutilizedIdxs (cur : List Assignment) (ovId : String) : List Nat :=
  (List.range cur.length).filter (fun j =>
    let a := cur.getD j default
    decide (¬ a.nurseId = ovId) &&
      decide ((a.workload : ℚ) < (a.maxWorkload : ℚ) * 0.6) &&
      decide ((a.patients.length : Int) < a.maxPatients))

/-- The suggestion text built for each emitted suggestion. -/
def suggestionReason (p : Patient) (fromName toName : String) : String :=
  "Move " ++ p.name ++ " (acuity " ++ toString p.acuity ++ ") from " ++
    fromName ++ " to " ++ toName ++ " to balance workload"

/-- Body of the inner per-patient loop of the detector.  `ov` is the
overloaded assignment as read at the start of its outer iteration (its slot
is never a target, so this matches the live object), `pool` the underutilized
indices computed at the same time; target workloads are read from the current
(possibly already mutated) list. -/
def suggestForPatient (ov : Assignment) (pool : List Nat)
    (st : List Assignment × List RebalancingSuggestion) (p : Patient) :
    List Assignment × List RebalancingSuggestion :=
  let cur := st.1
  let skillMatchIdxs := pool.filter (fun j =>
    (cur.getD j default).qualifications.contains p.unit)
  match (if skillMatchIdxs.length > 0 then skillMatchIdxs.head? else pool.head?) with
  | none => st
  | some j =>
    let tgt := cur.getD j default
    let expectedFromWorkload := ov.workload - p.acuity
    let expectedToWorkload := tgt.workload + p.acuity
    if expectedFromWorkload < ov.workload ∧ expectedToWorkload < tgt.maxWorkload then
      let sugg : RebalancingSuggestion :=
        { fromNurseId := ov.nurseId, fromNurseName := ov.nurseName,
          toNurseId := tgt.nurseId, toNurseName := tgt.nurseName,
          patientId := p.id, patientName := p.name,
          reason := suggestionReason p ov.nurseName tgt.nurseName,
          expectedFromWorkload := expectedFromWorkload,
          expectedToWorkload := expectedToWorkload,
          skillMatch := tgt.qualifications.contains p.unit }
      (cur.set j { tgt with workload := tgt.workload + p.acuity,
                            patients := tgt.patients ++ [p] },
       st.2 ++ [sugg])
    else st

/-- The imbalance detector `generateRebalancingSuggestions`
(src/server/rebalancer.ts lines 120-180).  Returns the emitted suggestions
together with the post-call value of the input assignment list (the source
mutates targets in place). -/
def generateRebalancingSuggestions (assignments : List Assignment) :
    List RebalancingSuggestion × List Assignment :=
  let overloadedIdxs := (List.range assignments.length).filter
    (fun i => (assignments.getD i default).isOverloaded)
  let final := overloadedIdxs.foldl (fun st i =>
      let ov := st.1.getD i default
      let pool := underutilizedIdxs st.1 ov.nurseId
      ov.patients.foldl (suggestForPatient ov pool) st)
    (assignments, [])
  (final.2, final.1)

/-! ## applySuggestion (src/server/rebalancer.ts, lines 185-237) -/

/-- The per-element transform of `applySuggestion`'s map.  `assignments` is
the whole input list (used to look the moved patient up for the target
branch). -/
def applySuggestionElem (assignments : List Assignment)
    (sg : RebalancingSuggestion) (a : Assignment) : Assignment :=
  let fromBranch : Option Assignment :=
    if a.nurseId = sg.fromNurseId then
      match a.patients.find? (fun p => decide (p.id = sg.patientId)) with
      | some pm => some
          { a with
            patients := a.patients.filter (fun p => decide (¬ p.id = sg.patientId)),
            workload := a.workload - pm.acuity,
            isOverloaded :=
              decide (a.workload - pm.acuity > a.maxWorkload) ||
              decide ((a.patients.length : Int) - 1 > a.maxPatients),
            alert :=
              if a.workload - pm.acuity > a.maxWorkload then "Workload too high!"
              else if (a.patients.length : Int) - 1 > a.maxPatients then "Too many patients!"
              else "" }
      | none => none
    else none
  match fromBranch with
  | some a' => a'
  | none =>
    if a.nurseId = sg.toNurseId then
      match (assignments.find? (fun x => decide (x.nurseId = sg.fromNurseId))).bind
          (fun x => x.patients.find? (fun p => decide (p.id = sg.patientId))) with
      | some pAdd =>
          { a with
            patients := a.patients ++ [pAdd],
            workload := a.workload + pAdd.acuity,
            isOverloaded :=
              decide (a.workload + pAdd.acuity > a.maxWorkload) ||
              decide ((a.patients.length : Int) + 1 > a.maxPatients),
            alert :=
              if a.workload + pAdd.acuity > a.maxWorkload then "Workload too high!"
              else if (a.patients.length : Int) + 1 > a.maxPatients then "Too many patients!"
              else "" }
      | none => a
    else a

/-- `applySuggestion` (src/server/rebalancer.ts): pure map over the
assignment list moving the named patient from source to target. -/
def applySuggestion (assignments : List Assignment)
    (sg : RebalancingSuggestion) : List Assignment :=
  assignments.map (applySuggestionElem assignments sg)

/-! ## Engine-internal applyRebalancingSuggestion
(src/server/simulationEngine.ts, lines 538-575): recomputes `patients` and
`workload` of source and target, leaves all other fields untouched. -/

/-- The engine's private suggestion applier used by the tick's auto-apply
step. -/
def applyRebalancingSuggestion (assignments : List Assignment)
    (fromNurseId toNurseId patientId : String) : List Assignment :=
  assignments.map (fun a =>
    if a.nurseId = fromNurseId then
      let updatedPatients := a.patients.filter (fun p => decide (¬ p.id = patientId))
      { a with patients := updatedPatients, workload := sumAcuity updatedPatients }
    else if a.nurseId = toNurseId then
      match (assignments.find? (fun x => decide (x.nurseId = fromNurseId))).bind
          (fun x => x.patients.find? (fun p => decide (p.id = patientId))) with
      | some p =>
          let updatedPatients := a.patients ++ [p]
          { a with patients := updatedPatients, workload := sumAcuity updatedPatients }
      | none => a
    else a)

/-! ## Balance metric (src/server/simulationEngine.ts, calculateBalanceMetric)

The source computes `stdDev = Math.sqrt(variance)` and compares it against 1
and 1.5.  Since the square root is strictly monotone and nonnegative,
`stdDev <= 1` holds exactly when `variance <= 1` and `stdDev <= 1.5` exactly
when `variance <= 2.25`; the embedding therefore carries the variance (the
square of the standard deviation) exactly in `ℚ` and classifies on it. -/

inductive BalanceStatus where
  | IDEAL
  | SUFFICIENT
  | INADEQUATE
  deriving Repr, DecidableEq, Inhabited

/-- Per-nurse patient counts (`assignments.map(a => a.patients.length)`). -/
def patientCounts (assignments : List Assignment) : List Int :=
  assignments.map (fun a => (a.patients.length : Int))

/-- Mean patient count. -/
def meanPatientCount (assignments : List Assignment) : ℚ :=
  (((patientCounts assignments).foldl (· + ·) 0 : Int) : ℚ) /
    ((patientCounts assignments).length : ℚ)

/-- Population variance of the patient counts (square of the source's
`stdDev`). -/
def variancePatientCount (assignments : List Assignment) : ℚ :=
  (((patientCounts assignments).map
      (fun c => ((c : ℚ) - meanPatientCount assignments) ^ 2)).foldl (· + ·) 0) /
    ((patientCounts assignments).length : ℚ)

/-- Maximum patient count (`Math.max(...patientCounts)`, only evaluated on a
non-empty list). -/
def maxPatientCountOf (assignments : List Assignment) : Int :=
  match patientCounts assignments with
  | [] => 0
  | c :: t => t.foldl max c

/-- Result record of `calculateBalanceMetric`.  `standardDeviationSq` is the
square of the source's `standardDeviation` field (see section comment). -/
structure BalanceMetric where
  metric : BalanceStatus
  standardDeviationSq : ℚ
  averagePatientCount : ℚ
  maxPatientCount : Int
  deriving Repr, DecidableEq, Inhabited

/-- `calculateBalanceMetric` (src/server/simulationEngine.ts lines 615-656). -/
def calculateBalanceMetric (assignments : List Assignment) : BalanceMetric :=
  if assignments.length = 0 then
    { metric := .IDEAL, standardDeviationSq := 0,
      averagePatientCount := 0, maxPatientCount := 0 }
  else
    let mean := meanPatientCount assignments
    let variance := variancePatientCount assignments
    let maxCount := maxPatientCountOf assignments
    let metric : BalanceStatus :=
      if maxCount ≤ 2 ∧ variance ≤ 1 then .IDEAL
      else if maxCount ≤ 4 ∧ variance ≤ 9/4 then .SUFFICIENT
      else .INADEQUATE
    { metric := metric, standardDeviationSq := variance,
      averagePatientCount := mean, maxPatientCount := maxCount }

/-! ## Name generator (src/server/nameGenerator.ts) and random oracle -/

/-- Random oracle: `rand k` is the value of the `k`-th `Math.random()` call
of the modelled run (call sites consume indices in program order), `now`
stands for `Date.now()`. -/
structure RandomSource where
  rand : Nat → ℚ
  now : Nat

/-- First-name pool of the name generator. -/
def FIRST_NAMES : List String := [
  "James", "Mary", "Robert", "Patricia", "Michael", "Jennifer", "William", "Linda",
  "David", "Barbara", "Richard", "Susan", "Joseph", "Jessica", "Thomas", "Sarah",
  "Charles", "Karen", "Christopher", "Nancy", "Daniel", "Lisa", "Matthew", "Betty",
  "Mark", "Margaret", "Donald", "Sandra", "Steven", "Ashley", "Paul", "Kimberly",
  "Andrew", "Donna", "Joshua", "Carol", "Kenneth", "Michelle", "Kevin", "Emily",
  "Brian", "Melissa", "George", "Deborah", "Edward", "Stephanie", "Ronald", "Rebecca",
  "Anthony", "Sharon", "Frank", "Laura", "Ryan", "Cynthia", "Gary", "Kathleen",
  "Nicholas", "Amy", "Eric", "Angela", "Jonathan", "Shirley", "Stephen", "Anna",
  "Larry", "Brenda", "Justin", "Pamela", "Scott", "Emma", "Brandon", "Nicole",
  "Benjamin", "Helen", "Samuel", "Samantha", "Frank", "Katherine", "Gregory", "Christine",
  "Alexander", "Debra", "Patrick", "Rachel", "Jack", "Catherine", "Dennis", "Carolyn",
  "Jerry", "Janet", "Tyler", "Ruth", "Aaron", "Maria", "Jose", "Heather",
  "Adam", "Diane", "Henry", "Virginia", "Douglas", "Julie", "Zachary", "Joyce",
  "Peter", "Victoria", "Kyle", "Olivia", "Walter", "Kelly", "Harold", "Christina",
  "Jeremy", "Lauren", "Keith", "Joan", "Samuel", "Evelyn", "Willie", "Judith",
  "Ralph", "Megan", "Roy", "Andrea", "Russell", "Cheryl", "Louis", "Hannah",
  "Philip", "Jacqueline", "Johnny", "Martha", "Ernest", "Madison", "Martin", "Teresa",
  "Randall", "Sara", "Vincent", "Abigail", "Arthur", "Alice", "Shawn", "Sophia",
  "Clarence", "Natalie", "Sean", "Isabella", "Philip", "Audrey", "Chris", "Ella"]

/-- Last-name pool of the name generator. -/
def LAST_NAMES : List String := [
  "Smith", "Johnson", "Williams", "Brown", "Jones", "Garcia", "Miller", "Davis",
  "Rodriguez", "Martinez", "Hernandez", "Lopez", "Gonzalez", "Wilson", "Anderson",
  "Thomas", "Taylor", "Moore", "Jackson", "Martin", "Lee", "Perez", "Thompson",
  "White", "Harris", "Sanchez", "Clark", "Ramirez", "Lewis", "Robinson", "Young",
  "Allen", "King", "Wright", "Scott", "Torres", "Peterson", "Phillips", "Campbell",
  "Parker", "Evans", "Edwards", "Collins", "Reyes", "Stewart", "Morris", "Morales",
  "Murphy", "Cook", "Rogers", "Gutierrez", "Ortiz", "Morgan", "Peterson", "Cooper",
  "Peterson", "Reed", "Bell", "Gomez", "Munoz", "Mendoza", "Bush", "Wilkins",
  "Cummings", "Barker", "Bates", "Beard", "Beatty", "Beaumont", "Beaver", "Becker",
  "Beckham", "Beckley", "Beckman", "Beckwith", "Bedell", "Bedford", "Beebe", "Beech",
  "Beeman", "Beers", "Beeson", "Beevers", "Begley", "Behan", "Behnke", "Behrens",
  "Behrmann", "Beier", "Beierle", "Beightol", "Beimel", "Bein", "Beiner", "Beirne",
  "Beisel", "Beisser", "Beiter", "Beitler", "Beitz", "Bejan", "Bejano", "Bejaran",
  "Bejines", "Bejoian", "Bejosano", "Bejudo", "Bekaert", "Bekavac", "Beke", "Beker",
  "Bekermeyer", "Bekesha", "Bekesha", "Bekey", "Bekhuis", "Bekius", "Bekker", "Bekkering"]

/-- `list[Math.floor(q * list.length)]` indexing used by the generators. -/
def randPick (l : List String) (q : ℚ) : String :=
  l.getD (Int.toNat (Int.floor (q * (l.length : ℚ)))) ""

/-- `generateRandomName` (src/server/nameGenerator.ts): consumes two draws,
returns the name and the next free draw index. -/
def generateRandomName (r : Nat → ℚ) (k : Nat) : String × Nat :=
  (randPick FIRST_NAMES (r k) ++ " " ++ randPick LAST_NAMES (r (k + 1)), k + 2)

/-- The per-acuity condition pools of `getConditionFromAcuity`. -/
def conditionsFor (acuity : Int) : List String :=
  if acuity = 1 then ["Stable", "Recovering Well", "Ready for Discharge"]
  else if acuity = 2 then ["Stable", "Improving", "Monitoring"]
  else if acuity = 3 then ["Moderate", "Stable", "Under Observation"]
  else if acuity = 4 then ["Serious", "Requires Attention", "Unstable"]
  else if acuity = 5 then ["Critical", "Life-Threatening", "Intensive Care"]
  else []

/-- `getConditionFromAcuity` (src/server/simulationEngine.ts lines 248-259):
consumes one draw (`conditions[acuity] || conditions[3]` falls back to the
acuity-3 pool when the key is absent). -/
def getConditionFromAcuity (acuity : Int) (r : Nat → ℚ) (k : Nat) : String × Nat :=
  let options := if (conditionsFor acuity).isEmpty then conditionsFor 3
                 else conditionsFor acuity
  (randPick options (r k), k + 1)

/-! ## Simulation engine state (src/server/simulationEngine.ts) -/

/-- One entry of a workload snapshot's per-nurse record. -/
structure NurseUtil where
  utilization : ℚ
  nurseName : String
  deriving Repr, DecidableEq, Inhabited

/-- Workload snapshot; `nurseWorkloads` models the JS object as an ordered
association list (insertion order, updates in place). -/
structure WorkloadSnapshot where
  tick : Nat
  nurseWorkloads : List (String × NurseUtil)
  deriving Repr, DecidableEq, Inhabited

/-- The process-wide simulation state.  `lastUpdate` (a `Date` in the source)
is modelled by the oracle's `now` value. -/
structure SimulationState where
  patients : List Patient
  assignments : List Assignment
  lastUpdate : Nat
  tick : Nat
  isRunning : Bool
  workloadHistory : List WorkloadSnapshot
  deriving Repr, DecidableEq, Inhabited

/-- The module-level initial value of `simulationState` (before any
`initialize` call). -/
def initialSimulationState : SimulationState :=
  { patients := [], assignments := [], lastUpdate := 0, tick := 0,
    isRunning := false, workloadHistory := [] }

/-! ## createImbalancedInitialAssignments
(src/server/simulationEngine.ts, lines 38-126) -/

/-- Units in order of first appearance in the patient list (the iteration
order of the `patientsByUnit` object's keys). -/
def unitsInOrder (patients : List Patient) : List String :=
  patients.foldl (fun acc p => if acc.contains p.unit then acc else acc ++ [p.unit]) []

/-- The assignments one unit contributes: all the unit's patients are
dealt round-robin to the first (at most two) qualified not-yet-used nurses.
Returns the new assignments and the nurse ids added to the used set.
Only nurses that actually receive patients are recorded as used
(`nursePatients` only has keys for nurses hit by the round-robin). -/
def imbalancedUnitStep (patients : List Patient) (st : List Assignment × List String)
    (u : String) : List Assignment × List String :=
  let unitPatients := patients.filter (fun p => decide (p.unit = u))
  let availableNurses := STATIC_STAFF.filter (fun n =>
    n.qualifications.contains u && !(st.2.contains n.id))
  if availableNurses.isEmpty then st
  else
    let overloadedNurseCount := min 2 (max 1 availableNurses.length)
    let overloadedNurses := availableNurses.take overloadedNurseCount
    let usedCount := min overloadedNurseCount unitPatients.length
    let newAssignments := (List.range usedCount).map (fun j =>
      let nurse := overloadedNurses.getD j default
      let pats := ((unitPatients.enum.filter
        (fun q => decide (q.1 % overloadedNurseCount = j))).map (fun q => q.2))
      let workload := sumAcuity pats
      let maxPatients := if nurse.maxPatients = 0 then 5 else nurse.maxPatients
      let isOverloaded :=
        decide (workload > nurse.maxWorkload) ||
        decide ((pats.length : Int) > maxPatients)
      let alert :=
        if isOverloaded then
          (if (pats.length : Int) > maxPatients then "Too many patients!"
           else "Workload too high!")
        else ""
      { nurseId := nurse.id, nurseName := nurse.name, unit := nurse.unit,
        patients := pats, workload := workload, maxWorkload := nurse.maxWorkload,
        maxPatients := maxPatients, isOverloaded := isOverloaded, alert := alert,
        qualifications := nurse.qualifications, shift := nurse.shift })
    (st.1 ++ newAssignments,
     st.2 ++ ((overloadedNurses.take usedCount).map (fun n => n.id)))

/-- `createImbalancedInitialAssignments`: per-unit concentration of all
patients on at most two nurses, everyone else idle. -/
def createImbalancedInitialAssignments (patients : List Patient) : List Assignment :=
  let loaded := (unitsInOrder patients).foldl (imbalancedUnitStep patients) ([], [])
  let idle := (STATIC_STAFF.filter (fun n => !(loaded.2.contains n.id))).map (fun n =>
    { nurseId := n.id, nurseName := n.name, unit := n.unit, patients := [],
      workload := 0, maxWorkload := n.maxWorkload,
      maxPatients := if n.maxPatients = 0 then 5 else n.maxPatients,
      isOverloaded := false, alert := "",
      qualifications := n.qualifications, shift := n.shift })
  loaded.1 ++ idle

/-! ## initializeSimulation (src/server/simulationEngine.ts, lines 131-163) -/

/-- The initial patient pool: unit round-robin, random acuity (one draw),
random name (two draws), random condition string (one draw) per patient. -/
def initialPatients (r : Nat → ℚ) (now : Nat) (count : Nat) : List Patient :=
  ((List.range count).foldl (fun (st : List Patient × Nat) i =>
      let k := st.2
      let unit := SIM_UNITS.getD (i % SIM_UNITS.length) ""
      let acuity := Int.floor (r k * 5) + 1
      let nm := generateRandomName r (k + 1)
      let cond := getConditionFromAcuity acuity r nm.2
      (st.1 ++ [{ id := "patient-" ++ toString now ++ "-" ++ toString i,
                  name := nm.1, acuity := acuity, unit := unit,
                  condition := cond.1, requiredSkills := [unit] }],
       cond.2))
    ([], 0)).1

/-- `initializeSimulation`: fresh patient pool plus deliberately imbalanced
initial assignments; tick 0, running, empty history. -/
def initializeSimulation (initialPatientCount : Nat) (o : RandomSource) :
    SimulationState :=
  let patients := initialPatients o.rand o.now initialPatientCount
  { patients := patients,
    assignments := createImbalancedInitialAssignments patients,
    lastUpdate := o.now, tick := 0, isRunning := true, workloadHistory := [] }

/-! ## reassignStaffToUnits (src/server/simulationEngine.ts, lines 265-345) -/

/-- Patient count of a unit (`unitDemand[unit].count`, defaulting to 0). -/
def unitDemandCount (patients : List Patient) (u : String) : Int :=
  ((patients.filter (fun p => decide (p.unit = u))).length : Int)

/-- Total acuity of a unit (`unitDemand[unit].totalAcuity`, defaulting to 0). -/
def unitDemandAcuity (patients : List Patient) (u : String) : Int :=
  sumAcuity (patients.filter (fun p => decide (p.unit = u)))

/-- State of the reassignment loop: the staff copies and the `staffByUnit`
index (lists of positions into `staff`, in grouping/insertion order). -/
structure ReassignState where
  staff : List StaffMember
  byUnit : String → List Nat

/-- Initial `staffByUnit` grouping of a staff list. -/
def initByUnit (staff : List StaffMember) : String → List Nat :=
  fun u => ((staff.enum.filter (fun q => decide (q.2.unit = u))).map (fun q => q.1))

/-- Sum of `maxWorkload` over a list of staff positions. -/
def sumMaxWorkload (staff : List StaffMember) (idxs : List Nat) : Int :=
  idxs.foldl (fun s i => s + (staff.getD i default).maxWorkload) 0

/-- The inner donor scan: walk the other units in enumeration order and pull
the first qualifying staff member from the first underutilized donor that
has one, then stop (`break`); donors that are underutilized but hold no
qualified member are skipped (`continue`-like flow: the loop moves on). -/
def reassignScanDonors (patients : List Patient) (unit : String)
    (st : ReassignState) : List String → ReassignState
  | [] => st
  | otherUnit :: rest =>
    if otherUnit = unit then reassignScanDonors patients unit st rest
    else
      let otherStaff := st.byUnit otherUnit
      if otherStaff.length ≤ 1 then reassignScanDonors patients unit st rest
      else
        let otherAvgWorkload : ℚ :=
          if otherStaff.length > 0 then
            ((unitDemandAcuity patients otherUnit : Int) : ℚ) / (otherStaff.length : ℚ)
          else 0
        let otherAvgMax : ℚ :=
          if otherStaff.length > 0 then
            ((sumMaxWorkload st.staff otherStaff : Int) : ℚ) / (otherStaff.length : ℚ)
          else 8
        if otherAvgWorkload < otherAvgMax * 0.4 then
          match otherStaff.find? (fun i =>
              (st.staff.getD i default).qualifications.contains unit) with
          | some idx =>
            let availableStaff := st.staff.getD idx default
            { staff := st.staff.set idx { availableStaff with unit := unit },
              byUnit := fun u' =>
                if u' = otherUnit then
                  (st.byUnit otherUnit).filter (fun j =>
                    decide (¬ (st.staff.getD j default).id = availableStaff.id))
                else if u' = unit then st.byUnit unit ++ [idx]
                else st.byUnit u' }
          | none => reassignScanDonors patients unit st rest
        else reassignScanDonors patients unit st rest

/-- One unit of the outer loop of `reassignStaffToUnits`. -/
def reassignUnitStep (patients : List Patient) (st : ReassignState)
    (unit : String) : ReassignState :=
  let demandCount := unitDemandCount patients unit
  let demandAcuity := unitDemandAcuity patients unit
  let currentStaff := st.byUnit unit
  let staffCount := currentStaff.length
  let avgWorkloadPerStaff : ℚ :=
    if staffCount > 0 then ((demandAcuity : Int) : ℚ) / (staffCount : ℚ) else 0
  let avgMaxWorkload : ℚ :=
    if staffCount > 0 then
      ((sumMaxWorkload st.staff currentStaff : Int) : ℚ) / (staffCount : ℚ)
    else 8
  if avgWorkloadPerStaff > avgMaxWorkload * 0.7 ∧ demandCount > 0 then
    reassignScanDonors patients unit st SIM_UNITS
  else st

/-- `reassignStaffToUnits`: starts from fresh copies of STATIC_STAFF (only
the copies' `unit` fields are ever written; the module constant itself is
untouched, which the shallow embedding reflects by reading `STATIC_STAFF`
anew on every call), moves at most one member per overloaded unit. -/
def reassignStaffToUnits (patients : List Patient) : List StaffMember :=
  (SIM_UNITS.foldl (reassignUnitStep patients)
    { staff := STATIC_STAFF, byUnit := initByUnit STATIC_STAFF }).staff

/-! ## runSimulationTick (src/server/simulationEngine.ts, lines 379-533)

The tick is decomposed into named stages, each a function of the previous
state's `patients` and the new tick number `t = tick + 1` (the only state
fields the pipeline reads) plus the oracle.  Draw indices are threaded in
program order. -/

/-- `convergenceFactor = Math.min(currentTick / 20, 1)`. -/
def tickConvergenceFactor (t : Nat) : ℚ := min ((t : ℚ) / 20) 1

/-- `randomnessFactor = 1 - convergenceFactor * 0.7`. -/
def randomnessFactor (t : Nat) : ℚ := 1 - tickConvergenceFactor t * 0.7

/-- Acuity-dependent base discharge chance. -/
def baseDischargeChance (acuity : Int) : ℚ :=
  if acuity = 1 then 0.2
  else if acuity = 2 then 0.15
  else if acuity = 3 then 0.1
  else if acuity = 4 then 0.05
  else 0.02

/-- Step 1: collect the ids of discharged patients (one draw per patient). -/
def tickDischargeIds (ps : List Patient) (t : Nat) (r : Nat → ℚ) (k : Nat) :
    List String × Nat :=
  ps.foldl (fun (st : List String × Nat) p =>
      (if r st.2 < baseDischargeChance p.acuity * randomnessFactor t
       then st.1 ++ [p.id] else st.1,
       st.2 + 1))
    ([], k)

/-- The weighted unit draw of an admission
(ER below 0.4, ICU below 0.6, MEDSURG below 0.8, else PEDS). -/
def admissionUnit (q : ℚ) : String :=
  if q < 0.4 then "ER" else if q < 0.6 then "ICU"
  else if q < 0.8 then "MEDSURG" else "PEDS"

/-- Step 2: stochastic admission of 1-3 new patients (draws: admission
chance; on success a count draw, then per patient unit, acuity, two name
draws and a condition draw). -/
def tickAdmissions (t : Nat) (r : Nat → ℚ) (k : Nat) (now : Nat) :
    List Patient × Nat :=
  if r k < 0.3 * randomnessFactor t then
    let admissionCount := Int.toNat (Int.floor (r (k + 1) * 3)) + 1
    (List.range admissionCount).foldl (fun (st : List Patient × Nat) i =>
        let k0 := st.2
        let unit := admissionUnit (r k0)
        let acuity := Int.floor (r (k0 + 1) * 5) + 1
        let nm := generateRandomName r (k0 + 2)
        let cond := getConditionFromAcuity acuity r nm.2
        (st.1 ++ [{ id := "patient-" ++ toString now ++ "-" ++ toString i,
                    name := nm.1, acuity := acuity, unit := unit,
                    condition := cond.1, requiredSkills := [unit] }],
         cond.2))
      ([], k + 2)
  else ([], k + 1)

/-- Step 3: stochastic acuity drift (one chance draw per patient; on success
a direction draw and a condition draw). -/
def tickAcuityChanges (ps : List Patient) (t : Nat) (r : Nat → ℚ) (k : Nat) :
    List Patient × Nat :=
  ps.foldl (fun (st : List Patient × Nat) p =>
      if r st.2 < 0.2 * randomnessFactor t then
        let change : Int := if r (st.2 + 1) < 0.5 then -1 else 1
        let newAcuity := max 1 (min 5 (p.acuity + change))
        let cond := getConditionFromAcuity newAcuity r (st.2 + 2)
        (st.1 ++ [{ p with acuity := newAcuity, condition := cond.1 }], cond.2)
      else (st.1 ++ [p], st.2 + 1))
    ([], k)

/-- Step 4: stochastic unit transfer (one chance draw per patient; a unit
draw only in the uniform-random case).  `requiredSkills` is left unchanged by
the source's spread. -/
def tickUnitTransfers (ps : List Patient) (t : Nat) (r : Nat → ℚ) (k : Nat) :
    List Patient × Nat :=
  ps.foldl (fun (st : List Patient × Nat) p =>
      if r st.2 < 0.05 * randomnessFactor t then
        let picked : String × Nat :=
          if p.acuity ≥ 4 then ("ICU", st.2 + 1)
          else if p.acuity = 1 then ("MEDSURG", st.2 + 1)
          else (SIM_UNITS.getD (Int.toNat (Int.floor (r (st.2 + 1) * 4))) "",
                st.2 + 2)
        (if ¬ picked.1 = p.unit then st.1 ++ [{ p with unit := picked.1 }]
         else st.1 ++ [p],
         picked.2)
      else (st.1 ++ [p], st.2 + 1))
    ([], k)

/-- Steps 1-4 of the tick: the churned patient pool (with the final draw
index). -/
def tickChurn (ps : List Patient) (t : Nat) (o : RandomSource) :
    List Patient × Nat :=
  let d := tickDischargeIds ps t o.rand 0
  let ps1 := ps.filter (fun p => !(d.1.contains p.id))
  let adm := tickAdmissions t o.rand d.2 o.now
  let ps2 := ps1 ++ adm.1
  let ac := tickAcuityChanges ps2 t o.rand adm.2
  tickUnitTransfers ac.1 t o.rand ac.2

/-- The churned patient pool of a tick. -/
def tickPatientsOf (ps : List Patient) (t : Nat) (o : RandomSource) : List Patient :=
  (tickChurn ps t o).1

/-- Step 6's input staff: dynamic reassignment over the churned pool. -/
def tickStaffOf (ps : List Patient) (t : Nat) (o : RandomSource) : List StaffMember :=
  reassignStaffToUnits (tickPatientsOf ps t o)

/-- Step 6: the solver's assignments for the tick. -/
def tickAssignmentsOf (ps : List Patient) (t : Nat) (o : RandomSource) :
    List Assignment :=
  assignPatientsToNurses (tickPatientsOf ps t o) (tickStaffOf ps t o)

/-- Step 7: the detector's suggestions together with the post-call (mutated)
assignment list. -/
def tickSuggestPairOf (ps : List Patient) (t : Nat) (o : RandomSource) :
    List RebalancingSuggestion × List Assignment :=
  generateRebalancingSuggestions (tickAssignmentsOf ps t o)

/-- `suggestionsToApply = Math.ceil(1 + convergenceFactor * 2)`. -/
def tickApplyCount (t : Nat) : Nat :=
  Int.toNat (Int.ceil ((1 : ℚ) + tickConvergenceFactor t * 2))

/-- `workloadThreshold = 3 - convergenceFactor * 2`. -/
def tickThreshold (t : Nat) : ℚ := 3 - tickConvergenceFactor t * 2

/-- The auto-apply acceptance test of step 8:
`Math.abs(expectedFromWorkload - expectedToWorkload) > workloadThreshold`. -/
def suggestionGapExceeds (sg : RebalancingSuggestion) (t : Nat) : Prop :=
  ((|sg.expectedFromWorkload - sg.expectedToWorkload| : Int) : ℚ) > tickThreshold t

instance (sg : RebalancingSuggestion) (t : Nat) :
    Decidable (suggestionGapExceeds sg t) := by
  unfold suggestionGapExceeds; infer_instance

/-- Step 8: auto-apply the accepted members of the first
`suggestionsToApply` suggestions. -/
def tickRebalancedOf (ps : List Patient) (t : Nat) (o : RandomSource) :
    List Assignment :=
  ((tickSuggestPairOf ps t o).1.take (tickApplyCount t)).foldl
    (fun acc sg =>
      if suggestionGapExceeds sg t then
        applyRebalancingSuggestion acc sg.fromNurseId sg.toNurseId sg.patientId
      else acc)
    (tickSuggestPairOf ps t o).2

/-- JS-object style upsert used to build a snapshot's nurseWorkloads record. -/
def upsertNurseUtil (l : List (String × NurseUtil)) (key : String) (v : NurseUtil) :
    List (String × NurseUtil) :=
  if (l.find? (fun q => decide (q.1 = key))).isSome then
    l.map (fun q => if q.1 = key then (key, v) else q)
  else l ++ [(key, v)]

/-- Step 9's snapshot: per-nurse utilization = workload / maxWorkload
(0 when maxWorkload is 0). -/
def mkWorkloadSnapshot (t : Nat) (assignments : List Assignment) : WorkloadSnapshot :=
  { tick := t,
    nurseWorkloads := assignments.foldl (fun acc a =>
        upsertNurseUtil acc a.nurseId
          { utilization :=
              if (0 : Int) < a.maxWorkload then (a.workload : ℚ) / (a.maxWorkload : ℚ) else 0,
            nurseName := a.nurseName })
      [] }

/-- History trimming: append then `shift()` away the oldest entry once the
length exceeds 50. -/
def trimHistory (h : List WorkloadSnapshot) : List WorkloadSnapshot :=
  if h.length > 50 then h.tail else h

/-- `runSimulationTick`: a no-op on a stopped state, otherwise the staged
pipeline above plus the tick/lastUpdate/history bookkeeping. -/
def runSimulationTick (s : SimulationState) (o : RandomSource) : SimulationState :=
  if s.isRunning then
    { patients := tickPatientsOf s.patients (s.tick + 1) o,
      assignments := tickRebalancedOf s.patients (s.tick + 1) o,
      lastUpdate := o.now,
      tick := s.tick + 1,
      isRunning := true,
      workloadHistory := trimHistory (s.workloadHistory ++
        [mkWorkloadSnapshot (s.tick + 1) (tickRebalancedOf s.patients (s.tick + 1) o)]) }
  else s

/-- `startSimulation`: set the running flag (a no-op when already running,
with the same resulting state). -/
def startSimulation (s : SimulationState) : SimulationState :=
  { s with isRunning := true }

/-- `stopSimulation`: clear the running flag. -/
def stopSimulation (s : SimulationState) : SimulationState :=
  { s with isRunning := false }

/-- `resetSimulation`: wholesale replacement by a fresh initialization. -/
def resetSimulation (initialPatientCount : Nat) (o : RandomSource) : SimulationState :=
  initializeSimulation initialPatientCount o

/-- Reachable simulation states: the module's initial state, any
initialization (also covering `resetSimulation`), and closure under tick,
start and stop, each with an arbitrary oracle. -/
inductive Reachable : SimulationState → Prop
  | initial : Reachable initialSimulationState
  | init (n : Nat) (o : RandomSource) : Reachable (initializeSimulation n o)
  | tick (s : SimulationState) (o : RandomSource) :
      Reachable s → Reachable (runSimulationTick s o)
  | start (s : SimulationState) : Reachable s → Reachable (startSimulation s)
  | stop (s : SimulationState) : Reachable s → Reachable (stopSimulation s)

/-- Total workload across an assignment list (the spec's left-hand sum). -/
def totalWorkload (assignments : List Assignment) : Int :=
  (assignments.map (fun a => a.workload)).sum

/-- Total acuity across a patient list (the spec's right-hand sum). -/
def totalAcuity (patients : List Patient) : Int :=
  (patients.map (fun p => p.acuity)).sum

/-! ## Claim C7: tick on a stopped (or never-initialized) simulation -/

/-- C7: Calling `tick()` when the simulation is not running — in particular
before `initialize()` has ever been called, since the module-level initial
state has `isRunning = false` — returns the state unchanged (every field
untouched) and, being a total function, raises no error. -/
theorem tick_noop_of_not_running :
    (∀ (s : SimulationState) (o : RandomSource),
      s.isRunning = false → runSimulationTick s o = s) ∧
    initialSimulationState.isRunning = false := by
  refine ⟨fun s o h => ?_, rfl⟩
  simp [runSimulationTick, h]

/-- Witness for C7: a tick on the uninitialized module state is the
identity. -/
theorem tick_noop_of_not_running_witness :
    runSimulationTick initialSimulationState ⟨fun _ => 1/2, 0⟩ =
      initialSimulationState :=
  tick_noop_of_not_running.1 initialSimulationState ⟨fun _ => 1/2, 0⟩ rfl

/-! ## Claim C8: the workload history never exceeds 50 snapshots -/

/-- Trimming after an append keeps any bounded history bounded. -/
theorem trimHistory_append_le (h : List WorkloadSnapshot) (x : WorkloadSnapshot)
    (hb : h.length ≤ 50) : (trimHistory (h ++ [x])).length ≤ 50 := by
  unfold trimHistory
  split <;> (simp_all; try omega)

/-- C8: invariant over all reachable simulation states — the workload
history holds at most 50 snapshots, however many ticks have run since
initialization. -/
theorem history_bounded_of_reachable :
    ∀ (s : SimulationState), Reachable s → s.workloadHistory.length ≤ 50 := by
  intro s h
  induction h with
  | initial => simp [initialSimulationState]
  | init n o => simp [initializeSimulation]
  | tick s o _ ih =>
    by_cases hr : s.isRunning
    · simp only [runSimulationTick, hr, if_true]
      exact trimHistory_append_le _ _ ih
    · simp only [runSimulationTick, hr, if_false]
      exact ih
  | start s _ ih => simpa [startSimulation] using ih
  | stop s _ ih => simpa [stopSimulation] using ih

/-- Witness for C8: the bound instantiated at a concrete reachable state
(one tick after an initialization). -/
theorem history_bounded_of_reachable_witness :
    (runSimulationTick (initializeSimulation 4 ⟨fun _ => 1/2, 0⟩)
      ⟨fun _ => 1/2, 0⟩).workloadHistory.length ≤ 50 :=
  history_bounded_of_reachable _
    (Reachable.tick _ _ (Reachable.init 4 ⟨fun _ => 1/2, 0⟩))

/-! ## Claim C1: workload totals versus admitted-patient acuity totals -/

/-- Appending one patient adds its acuity to the sum. -/
theorem sumAcuity_append_singleton (ps : List Patient) (p : Patient) :
    sumAcuity (ps ++ [p]) = sumAcuity ps + p.acuity := by
  simp [sumAcuity, List.foldl_append]

/-- Every assignment's `workload` field equals the acuity sum of its own
patient list. -/
def WorkloadConsistent (assignments : List Assignment) : Prop :=
  ∀ a ∈ assignments, a.workload = sumAcuity a.patients

/-- A fold preserves any invariant its step preserves. -/
theorem foldl_preserve {α β : Type} (P : α → Prop) (f : α → β → α)
    (l : List β) (a : α) (h0 : P a) (hstep : ∀ x b, P x → P (f x b)) :
    P (l.foldl f a) := by
  induction l generalizing a with
  | nil => exact h0
  | cons b t ih => exact ih (f a b) (hstep a b h0)

/-- Tracking invariant of the solver loop. -/
def TrackedConsistent (l : List TrackedNurse) : Prop :=
  ∀ n ∈ l, n.currentWorkload = sumAcuity n.assignedPatients

/-- The indexed read of the solver loop is consistent whenever the whole
list is (out-of-range reads give the default record, which is consistent). -/
theorem getD_consistent (l : List TrackedNurse) (i : Nat)
    (h : TrackedConsistent l) :
    (l.getD i default).currentWorkload =
      sumAcuity (l.getD i default).assignedPatients := by
  by_cases hi : i < l.length
  · refine h _ ?_
    rw [List.getD_eq_getElem l default hi]
    exact List.getElem_mem hi
  · rw [List.getD_eq_default l default (Nat.le_of_not_lt hi)]
    rfl

/-- `pushPatient` keeps the tracking invariant. -/
theorem pushPatient_consistent (l : List TrackedNurse) (i : Nat) (p : Patient)
    (h : TrackedConsistent l) : TrackedConsistent (pushPatient l i p) := by
  intro n hn
  rcases List.mem_or_eq_of_mem_set hn with hmem | rfl
  · exact h n hmem
  · simp only []
    rw [sumAcuity_append_singleton, getD_consistent l i h]

/-- One solver iteration keeps the tracking invariant. -/
theorem assignOne_consistent (l : List TrackedNurse) (p : Patient)
    (h : TrackedConsistent l) : TrackedConsistent (assignOne l p) := by
  unfold assignOne
  rcases hq : chooseBestIdx l (qualifiedIdxs l p) with _ | i
  · rcases ha : chooseBestIdx l (availableIdxs l) with _ | j
    · simpa using h
    · simpa using pushPatient_consistent l j p h
  · simpa using pushPatient_consistent l i p h

/-- The solver's output satisfies per-assignment workload consistency for
every input. -/
theorem assignPatientsToNurses_consistent (patients : List Patient)
    (staff : List StaffMember) :
    WorkloadConsistent (assignPatientsToNurses patients staff) := by
  intro a ha
  unfold assignPatientsToNurses at ha
  rcases List.mem_map.mp ha with ⟨n, hn, rfl⟩
  have h : TrackedConsistent
      ((sortByAcuityDesc patients).foldl assignOne (mkTracked staff)) := by
    refine foldl_preserve TrackedConsistent assignOne _ _ ?_ ?_
    · intro n hn
      rcases List.mem_map.mp hn with ⟨m, _, rfl⟩
      rfl
    · exact fun x b hx => assignOne_consistent x b hx
  simpa [finalizeAssignment] using h n hn

/-- The indexed read of an assignment list is consistent whenever the whole
list is. -/
theorem getD_assignment_consistent (l : List Assignment) (i : Nat)
    (h : WorkloadConsistent l) :
    (l.getD i default).workload = sumAcuity (l.getD i default).patients := by
  by_cases hi : i < l.length
  · refine h _ ?_
    rw [List.getD_eq_getElem l default hi]
    exact List.getElem_mem hi
  · rw [List.getD_eq_default l default (Nat.le_of_not_lt hi)]
    rfl

/-- The detector's in-place bookkeeping keeps per-assignment workload
consistency of the (mutated) assignment list. -/
theorem generateRebalancingSuggestions_consistent (assignments : List Assignment)
    (h : WorkloadConsistent assignments) :
    WorkloadConsistent (generateRebalancingSuggestions assignments).2 := by
  unfold generateRebalancingSuggestions
  simp only []
  have : ∀ (idxs : List Nat) (st : List Assignment × List RebalancingSuggestion),
      WorkloadConsistent st.1 →
      WorkloadConsistent (idxs.foldl (fun st i =>
        let ov := st.1.getD i default
        let pool := underutilizedIdxs st.1 ov.nurseId
        ov.patients.foldl (suggestForPatient ov pool) st) st).1 := by
    intro idxs
    induction idxs with
    | nil => intro st hst; exact hst
    | cons i rest ih =>
      intro st hst
      refine ih _ ?_
      refine (foldl_preserve (fun st : List Assignment × List RebalancingSuggestion =>
        WorkloadConsistent st.1) _ _ _ hst ?_)
      intro x p hx
      unfold suggestForPatient
      simp only []
      split
      · exact hx
      · split
        · intro a ha
          rcases List.mem_or_eq_of_mem_set ha with hmem | rfl
          · exact hx a hmem
          · simp only []
            rw [sumAcuity_append_singleton, getD_assignment_consistent x.1 _ hx]
        · exact hx
  exact this _ _ h

/-- The engine's suggestion applier recomputes workloads from the updated
patient lists, so it keeps per-assignment workload consistency. -/
theorem applyRebalancingSuggestion_consistent (assignments : List Assignment)
    (fromNurseId toNurseId patientId : String)
    (h : WorkloadConsistent assignments) :
    WorkloadConsistent
      (applyRebalancingSuggestion assignments fromNurseId toNurseId patientId) := by
  intro a ha
  unfold applyRebalancingSuggestion at ha
  rcases List.mem_map.mp ha with ⟨b, hb, rfl⟩
  split
  · rfl
  · split
    · split
      · rfl
      · exact h b hb
    · exact h b hb

/-- The deliberately imbalanced initial assignments are workload-consistent
for every patient list. -/
theorem createImbalancedInitialAssignments_consistent (patients : List Patient) :
    WorkloadConsistent (createImbalancedInitialAssignments patients) := by
  intro a ha
  unfold createImbalancedInitialAssignments at ha
  simp only [] at ha
  rcases List.mem_append.mp ha with hl | hi
  · have : ∀ (units : List String)
        (st : List Assignment × List String), WorkloadConsistent st.1 →
        WorkloadConsistent (units.foldl (imbalancedUnitStep patients) st).1 := by
      intro units
      induction units with
      | nil => intro st hst; exact hst
      | cons u rest ih =>
        intro st hst
        refine ih _ ?_
        unfold imbalancedUnitStep
        simp only []
        split
        · exact hst
        · intro a ha
          rcases List.mem_append.mp ha with hold | hnew
          · exact hst a hold
          · rcases List.mem_map.mp hnew with ⟨j, _, rfl⟩
            rfl
    exact this _ _ (by intro a ha; cases ha) a hl
  · rcases List.mem_map.mp hi with ⟨n, _, rfl⟩
    rfl

/-- The assignments stored by a tick are workload-consistent. -/
theorem tickRebalancedOf_consistent (ps : List Patient) (t : Nat)
    (o : RandomSource) : WorkloadConsistent (tickRebalancedOf ps t o) := by
  unfold tickRebalancedOf
  refine foldl_preserve WorkloadConsistent _ _ _ ?_ ?_
  · exact generateRebalancingSuggestions_consistent _
      (assignPatientsToNurses_consistent _ _)
  · intro x sg hx
    split
    · exact applyRebalancingSuggestion_consistent _ _ _ _ hx
    · exact hx

/-- C1 (amended): over all reachable simulation states, every assignment's
`workload` equals the acuity sum of the patients in its own list; hence the
total workload equals the total acuity over assigned patient occurrences.
The totals over the admitted-patient list can differ (see the
counterexample), because patients can be left unassigned under capacity
exhaustion. -/
theorem workload_consistent_of_reachable :
    ∀ (s : SimulationState), Reachable s →
      WorkloadConsistent s.assignments ∧
      totalWorkload s.assignments =
        (s.assignments.map (fun a => sumAcuity a.patients)).sum := by
  have total : ∀ (l : List Assignment), WorkloadConsistent l →
      totalWorkload l = (l.map (fun a => sumAcuity a.patients)).sum := by
    intro l hl
    unfold totalWorkload
    induction l with
    | nil => rfl
    | cons a t ih =>
      simp only [List.map_cons, List.sum_cons]
      rw [hl a (List.mem_cons_self a t),
        ih (fun b hb => hl b (List.mem_cons_of_mem a hb))]
  intro s h
  have hc : WorkloadConsistent s.assignments := by
    induction h with
    | initial => intro a ha; cases ha
    | init n o =>
      simpa [initializeSimulation] using
        createImbalancedInitialAssignments_consistent
          (initialPatients o.rand o.now n)
    | tick s o _ ih =>
      by_cases hr : s.isRunning
      · simp only [runSimulationTick, hr, if_true]
        exact tickRebalancedOf_consistent _ _ _
      · simp only [runSimulationTick, hr, if_false]
        exact ih
    | start s _ ih => simpa [startSimulation] using ih
    | stop s _ ih => simpa [stopSimulation] using ih
  exact ⟨hc, total s.assignments hc⟩

/-- Witness for the amended C1 invariant at a concrete reachable state. -/
theorem workload_consistent_of_reachable_witness :
    WorkloadConsistent (initializeSimulation 4 ⟨fun _ => 1/2, 0⟩).assignments ∧
    totalWorkload (initializeSimulation 4 ⟨fun _ => 1/2, 0⟩).assignments =
      ((initializeSimulation 4 ⟨fun _ => 1/2, 0⟩).assignments.map
        (fun a => sumAcuity a.patients)).sum :=
  workload_consistent_of_reachable _ (Reachable.init 4 ⟨fun _ => 1/2, 0⟩)

/-- An oracle whose every draw is 0.99: all generated acuities are 5 and no
stochastic tick event fires. -/
def oracleConst99 : RandomSource := ⟨fun _ => 99/100, 0⟩

/-- A reachable state exhausting the roster's capacity: 22 acuity-5 patients
re-assigned by one tick; the solver can place only 20 of them, so two stay
unassigned. -/
def capacityExhaustedState : SimulationState :=
  runSimulationTick (initializeSimulation 22 oracleConst99) oracleConst99

/-- Counterexample to C1 as stated: `capacityExhaustedState` is reachable
(one tick after `initialize(22)`), yet the sum of `workload` over its
assignments (100) differs from the sum of acuity over its admitted patients
(110): two patients were left unassigned when every nurse's capacity was
exhausted. -/
theorem workload_total_counterexample :
    Reachable capacityExhaustedState ∧
    ¬ totalWorkload capacityExhaustedState.assignments =
        totalAcuity capacityExhaustedState.patients :=
  ⟨Reachable.tick _ _ (Reachable.init 22 oracleConst99),
   by with_unfolding_all decide⟩

/-! ## Claim C10: the engine's applier leaves the overload flags stale -/

/-- All assignment fields except `patients` and `workload`. -/
def assignmentFrame (a : Assignment) :
    String × String × String × List String × Int × Int × Bool × String × Shift :=
  (a.nurseId, a.nurseName, a.unit, a.qualifications, a.maxWorkload,
   a.maxPatients, a.isOverloaded, a.alert, a.shift)

/-- Initialization oracle for the stale-flag scenario: acuity 3 for the
PEDS round-robin slots, acuity 2 for everyone else. -/
def oracleInitStale : RandomSource :=
  ⟨fun k => if k % 4 = 0 ∧ ¬ (k / 4) % 4 = 3 then 3/10 else 1/2, 0⟩

/-- Tick draws for the stale-flag scenario: discharge the first twelve
non-PEDS patients, admit nobody, drift nobody, transfer the surviving
non-PEDS patients to the ICU. -/
def staleTickDraws : List ℚ :=
  ((List.range 36).map (fun i => if i < 16 ∧ ¬ i % 4 = 3 then 1/100 else 9/10))
  ++ [9/10]
  ++ List.replicate 24 (9/10)
  ++ [9/10, 9/10, 9/10, 9/10]
  ++ (List.flatten (List.replicate 5 [1/100, 1/10, 1/100, 1/10, 1/100, 1/10, 9/10]))

/-- Tick oracle for the stale-flag scenario. -/
def oracleTickStale : RandomSource := ⟨fun k => staleTickDraws.getD k (9/10), 0⟩

/-- A reachable state in which the auto-apply step has fired: the tick's
first suggestion (moving an acuity-3 patient off the overloaded nurse-005)
passes the workload-gap threshold and is applied. -/
def staleFlagState : SimulationState :=
  runSimulationTick (initializeSimulation 36 oracleInitStale) oracleTickStale

/-- C10: the engine-internal `applyRebalancingSuggestion` changes only the
`patients` and `workload` fields (first conjunct: every other field of every
assignment, in particular `isOverloaded` and `alert`, is unchanged for all
inputs); consequently there is a reachable state, stored after an auto-apply,
holding an assignment whose `isOverloaded` flag is `true` although its
updated workload and patient count are both within bounds (second and third
conjuncts: `staleFlagState` is reachable and contains such an assignment). -/
theorem applyRebalancingSuggestion_frame_and_stale_flag :
    (∀ (assignments : List Assignment) (fromNurseId toNurseId patientId : String),
      (applyRebalancingSuggestion assignments fromNurseId toNurseId patientId).map
          assignmentFrame =
        assignments.map assignmentFrame) ∧
    Reachable staleFlagState ∧
    staleFlagState.assignments.any (fun a =>
      a.isOverloaded &&
      !(decide (a.workload > a.maxWorkload) ||
        decide ((a.patients.length : Int) > a.maxPatients))) = true := by
  refine ⟨?_, Reachable.tick _ _ (Reachable.init 36 oracleInitStale),
    by with_unfolding_all decide⟩
  intro assignments fromNurseId toNurseId patientId
  unfold applyRebalancingSuggestion
  rw [List.map_map]
  refine List.map_congr_left ?_
  intro a _
  simp only [Function.comp_apply]
  split
  · rfl
  · split
    · split
      · rfl
      · rfl
    · rfl

/-! ## Claim C3: the detector mutates its input -/

/-- A patient used by the detector-mutation evaluation. -/
def demoPatientX : Patient :=
  { id := "p-X", name := "Pat X", acuity := 2, condition := "Stable",
    requiredSkills := ["ICU"], unit := "ICU" }

/-- An overloaded source assignment. -/
def demoOverloaded : Assignment :=
  { nurseId := "nurse-A", nurseName := "Nurse A", unit := "ICU",
    qualifications := ["ICU"], patients := [demoPatientX], workload := 10,
    maxWorkload := 8, maxPatients := 4, isOverloaded := true,
    alert := "Workload too high!", shift := morningShift }

/-- An underutilized target assignment. -/
def demoUnderused : Assignment :=
  { nurseId := "nurse-B", nurseName := "Nurse B", unit := "ICU",
    qualifications := ["ICU"], patients := [], workload := 0,
    maxWorkload := 8, maxPatients := 4, isOverloaded := false,
    alert := "", shift := morningShift }

/-- C3 evaluation at the failing input: `generateRebalancingSuggestions`
emits one suggestion and, contrary to the claimed purity, leaves the input's
target assignment mutated — its workload is raised by the moved patient's
acuity and the patient is appended to its list (while the source still holds
the patient too). -/
theorem suggest_mutates_input :
    ¬ (generateRebalancingSuggestions [demoOverloaded, demoUnderused]).2 =
        [demoOverloaded, demoUnderused] ∧
    ((generateRebalancingSuggestions [demoOverloaded, demoUnderused]).2.getD 1
        default).workload = demoUnderused.workload + demoPatientX.acuity ∧
    ((generateRebalancingSuggestions [demoOverloaded, demoUnderused]).2.getD 1
        default).patients = demoUnderused.patients ++ [demoPatientX] ∧
    (generateRebalancingSuggestions [demoOverloaded, demoUnderused]).1.length = 1 := by
  with_unfolding_all decide

/-! ## Claim C2: which pool member the solver picks -/

/-- The source's `reduce` pick over a strictly increasing list of indices
selects an index of minimal weight, and among ties the **largest** (i.e. the
last one encountered): on `w prev < w cur ? prev : cur`, equality falls into
the `cur` branch. -/
theorem foldl_pick_lastArgmin (w : Nat → Int) (l : List Nat) (a : Nat)
    (hp : (a :: l).Pairwise (· < ·)) :
    (l.foldl (fun prev cur => if w prev < w cur then prev else cur) a) ∈ a :: l ∧
    ∀ j ∈ a :: l,
      w (l.foldl (fun prev cur => if w prev < w cur then prev else cur) a) ≤ w j ∧
      (w j = w (l.foldl (fun prev cur => if w prev < w cur then prev else cur) a) →
        j ≤ l.foldl (fun prev cur => if w prev < w cur then prev else cur) a) := by
  induction l generalizing a with
  | nil =>
    refine ⟨List.mem_singleton_self a, ?_⟩
    intro j hj
    rw [List.mem_singleton.mp hj]
    exact ⟨le_refl _, fun _ => le_refl a⟩
  | cons b t ih =>
    have hab : a < b := (List.pairwise_cons.mp hp).1 b (List.mem_cons_self b t)
    have hat : ∀ x ∈ t, a < x := fun x hx =>
      (List.pairwise_cons.mp hp).1 x (List.mem_cons_of_mem b hx)
    have hbt : (b :: t).Pairwise (· < ·) := (List.pairwise_cons.mp hp).2
    by_cases hw : w a < w b
    · have hpat : (a :: t).Pairwise (· < ·) := by
        refine List.pairwise_cons.mpr ⟨hat, (List.pairwise_cons.mp hbt).2⟩
      have := ih a hpat
      simp only [List.foldl_cons, if_pos hw]
      obtain ⟨hmem, hprops⟩ := this
      constructor
      · rcases List.mem_cons.mp hmem with h1 | h1
        · rw [h1]
          exact List.mem_cons_self a (b :: t)
        · exact List.mem_cons_of_mem a (List.mem_cons_of_mem b h1)
      · intro j hj
        rcases List.mem_cons.mp hj with rfl | hj'
        · exact hprops j (List.mem_cons_self j t)
        · rcases List.mem_cons.mp hj' with rfl | hj''
          · have hra := hprops a (List.mem_cons_self a t)
            refine ⟨le_trans hra.1 (le_of_lt hw), fun heq => absurd heq ?_⟩
            exact ne_of_gt (lt_of_le_of_lt hra.1 hw)
          · exact hprops j (List.mem_cons_of_mem a hj'')
    · have := ih b hbt
      simp only [List.foldl_cons, if_neg hw]
      obtain ⟨hmem, hprops⟩ := this
      refine ⟨List.mem_cons_of_mem a hmem, ?_⟩
      intro j hj
      rcases List.mem_cons.mp hj with rfl | hj'
      · have hrb := hprops b (List.mem_cons_self b t)
        refine ⟨le_trans hrb.1 (le_of_not_lt hw), fun _ => ?_⟩
        have : b ≤ t.foldl (fun prev cur => if w prev < w cur then prev else cur) b := by
          rcases List.mem_cons.mp hmem with h1 | h1
          · exact le_of_eq h1.symm
          · exact le_of_lt ((List.pairwise_cons.mp hbt).1 _ h1)
        exact le_trans (le_of_lt hab) this
      · exact hprops j hj'

/-- C2 (amended): for every solver iteration with a non-empty qualified
pool, the patient is assigned to a pool member of minimal current workload,
and when several pool members tie for the minimum the one encountered
**last** in pool iteration order is selected (the pool is a strictly
increasing index list, so later encounter = larger index).  The final
conjunct ties the selection to the solver loop body. -/
theorem solver_picks_lowest_workload_last_tie (tracked : List TrackedNurse)
    (p : Patient) (hne : ¬ qualifiedIdxs tracked p = []) :
    ∃ i, chooseBestIdx tracked (qualifiedIdxs tracked p) = some i ∧
      i ∈ qualifiedIdxs tracked p ∧
      (∀ j ∈ qualifiedIdxs tracked p,
        (tracked.getD i default).currentWorkload ≤
          (tracked.getD j default).currentWorkload ∧
        ((tracked.getD j default).currentWorkload =
            (tracked.getD i default).currentWorkload → j ≤ i)) ∧
      assignOne tracked p = pushPatient tracked i p := by
  rcases hq : qualifiedIdxs tracked p with _ | ⟨a, l⟩
  · exact absurd hq hne
  · have hp : (a :: l).Pairwise (· < ·) := by
      rw [← hq]
      exact List.Pairwise.filter _ (List.pairwise_lt_range tracked.length)
    have := foldl_pick_lastArgmin
      (fun n => (tracked.getD n default).currentWorkload) l a hp
    refine ⟨l.foldl (fun prev cur =>
        if (tracked.getD prev default).currentWorkload <
           (tracked.getD cur default).currentWorkload then prev else cur) a,
      ?_, ?_, ?_, ?_⟩
    · rfl
    · simpa using this.1
    · simpa using this.2
    · unfold assignOne
      rw [hq]
      rfl


/-- An ICU patient used in the tie-break instances. -/
def tiePatient : Patient :=
  { id := "p-tie", name := "Tie Case", acuity := 1, condition := "Stable",
    requiredSkills := ["ICU"], unit := "ICU" }

/-- Counterexample to C2 as stated: with two qualified nurses both at
workload 0 (the pool is `[0, 1]`, nurse-001 encountered first), the solver
gives the patient to nurse-002 — the **last** tied pool member, not the
first. -/
theorem solver_first_tie_counterexample :
    (assignPatientsToNurses [tiePatient] (STATIC_STAFF.take 2)).map
        (fun a => (a.nurseId, a.patients.map (fun q => q.id))) =
      [("nurse-001", []), ("nurse-002", ["p-tie"])] ∧
    qualifiedIdxs (mkTracked (STATIC_STAFF.take 2)) tiePatient = [0, 1] ∧
    (mkTracked (STATIC_STAFF.take 2)).map (fun n => n.currentWorkload) = [0, 0] := by
  with_unfolding_all decide

/-- Witness for the amended C2: the characterization instantiated at the
two-nurse tie. -/
theorem solver_picks_lowest_workload_last_tie_witness :
    ∃ i, chooseBestIdx (mkTracked (STATIC_STAFF.take 2))
        (qualifiedIdxs (mkTracked (STATIC_STAFF.take 2)) tiePatient) = some i ∧
      i ∈ qualifiedIdxs (mkTracked (STATIC_STAFF.take 2)) tiePatient ∧
      (∀ j ∈ qualifiedIdxs (mkTracked (STATIC_STAFF.take 2)) tiePatient,
        ((mkTracked (STATIC_STAFF.take 2)).getD i default).currentWorkload ≤
          ((mkTracked (STATIC_STAFF.take 2)).getD j default).currentWorkload ∧
        (((mkTracked (STATIC_STAFF.take 2)).getD j default).currentWorkload =
            ((mkTracked (STATIC_STAFF.take 2)).getD i default).currentWorkload →
          j ≤ i)) ∧
      assignOne (mkTracked (STATIC_STAFF.take 2)) tiePatient =
        pushPatient (mkTracked (STATIC_STAFF.take 2)) i tiePatient :=
  solver_picks_lowest_workload_last_tie (mkTracked (STATIC_STAFF.take 2))
    tiePatient (by with_unfolding_all decide)

/-! ## Claim C5: the balance metric classification -/

/-- C5: `calculateBalanceMetric` returns IDEAL exactly when the list is
empty or `maxCount ≤ 2` and the population standard deviation is at most 1,
SUFFICIENT exactly when it is not IDEAL but `maxCount ≤ 4` and the standard
deviation is at most 1.5, and INADEQUATE otherwise; the empty list gets
IDEAL with all statistics zero.  (Standard-deviation comparisons are stated
on its square: `stdDev ≤ 1 ↔ variance ≤ 1` and `stdDev ≤ 1.5 ↔ variance ≤ 9/4`.) -/
theorem balance_metric_classification (assignments : List Assignment) :
    calculateBalanceMetric [] =
      { metric := .IDEAL, standardDeviationSq := 0,
        averagePatientCount := 0, maxPatientCount := 0 } ∧
    ((calculateBalanceMetric assignments).metric = .IDEAL ↔
      (assignments = [] ∨
        (maxPatientCountOf assignments ≤ 2 ∧ variancePatientCount assignments ≤ 1))) ∧
    ((calculateBalanceMetric assignments).metric = .SUFFICIENT ↔
      (¬ assignments = [] ∧
        ¬ (maxPatientCountOf assignments ≤ 2 ∧ variancePatientCount assignments ≤ 1) ∧
        maxPatientCountOf assignments ≤ 4 ∧ variancePatientCount assignments ≤ 9/4)) ∧
    ((calculateBalanceMetric assignments).metric = .INADEQUATE ↔
      (¬ assignments = [] ∧
        ¬ (maxPatientCountOf assignments ≤ 2 ∧ variancePatientCount assignments ≤ 1) ∧
        ¬ (maxPatientCountOf assignments ≤ 4 ∧ variancePatientCount assignments ≤ 9/4))) := by
  refine ⟨rfl, ?_, ?_, ?_⟩ <;>
  · by_cases he : assignments = []
    · subst he
      simp [calculateBalanceMetric]
    · have hlen : ¬ assignments.length = 0 := by
        simpa [List.length_eq_zero] using he
      simp only [calculateBalanceMetric, hlen, if_false]
      split_ifs <;> simp_all

/-! ## Claim C4: applySuggestion moves exactly one patient and conserves
workload -/

/-- Indexed read through a map, inside bounds. -/
theorem getD_map_of_lt {α β : Type} [Inhabited α] [Inhabited β]
    (f : α → β) (l : List α) (k : Nat) (hk : k < l.length) :
    (l.map f).getD k default = f (l.getD k default) := by
  rw [List.getD_eq_getElem l default hk,
    List.getD_eq_getElem (l.map f) default (by simpa using hk)]
  simp

/-- C4: if the source assignment (position `i`, the first one carrying
`fromNurseId`) holds the named patient and the target assignment (position
`j`) is a different nurse, then `applySuggestion` keeps the list length,
empties the source of every patient with the moved id, appends the moved
patient to the target, conserves the source+target workload sum, and leaves
every assignment of any other nurse unchanged. -/
theorem applySuggestion_moves_patient
    (assignments : List Assignment) (sg : RebalancingSuggestion)
    (i j : Nat) (pm : Patient)
    (hi : i < assignments.length) (hj : j < assignments.length)
    (hsrc : (assignments.getD i default).nurseId = sg.fromNurseId)
    (htgt : (assignments.getD j default).nurseId = sg.toNurseId)
    (hne : ¬ sg.toNurseId = sg.fromNurseId)
    (hfind : assignments.find? (fun a => decide (a.nurseId = sg.fromNurseId)) =
      some (assignments.getD i default))
    (hpm : (assignments.getD i default).patients.find?
        (fun p => decide (p.id = sg.patientId)) = some pm)
    (_hnotin : ∀ q ∈ (assignments.getD j default).patients, ¬ q.id = sg.patientId) :
    (applySuggestion assignments sg).length = assignments.length ∧
    (∀ q ∈ ((applySuggestion assignments sg).getD i default).patients,
      ¬ q.id = sg.patientId) ∧
    pm ∈ ((applySuggestion assignments sg).getD j default).patients ∧
    ((applySuggestion assignments sg).getD i default).workload +
        ((applySuggestion assignments sg).getD j default).workload =
      (assignments.getD i default).workload +
        (assignments.getD j default).workload ∧
    (∀ k, k < assignments.length →
      ¬ (assignments.getD k default).nurseId = sg.fromNurseId →
      ¬ (assignments.getD k default).nurseId = sg.toNurseId →
      (applySuggestion assignments sg).getD k default =
        assignments.getD k default) := by
  have helem : ∀ k, k < assignments.length →
      (applySuggestion assignments sg).getD k default =
        applySuggestionElem assignments sg (assignments.getD k default) := by
    intro k hk
    exact getD_map_of_lt _ _ _ hk
  have hieq : applySuggestionElem assignments sg (assignments.getD i default) =
      { assignments.getD i default with
        patients := (assignments.getD i default).patients.filter
          (fun p => decide (¬ p.id = sg.patientId)),
        workload := (assignments.getD i default).workload - pm.acuity,
        isOverloaded :=
          decide ((assignments.getD i default).workload - pm.acuity >
            (assignments.getD i default).maxWorkload) ||
          decide (((assignments.getD i default).patients.length : Int) - 1 >
            (assignments.getD i default).maxPatients),
        alert :=
          if (assignments.getD i default).workload - pm.acuity >
              (assignments.getD i default).maxWorkload then "Workload too high!"
          else if ((assignments.getD i default).patients.length : Int) - 1 >
              (assignments.getD i default).maxPatients then "Too many patients!"
          else "" } := by
    unfold applySuggestionElem
    rw [if_pos hsrc, hpm]
  have hjeq : applySuggestionElem assignments sg (assignments.getD j default) =
      { assignments.getD j default with
        patients := (assignments.getD j default).patients ++ [pm],
        workload := (assignments.getD j default).workload + pm.acuity,
        isOverloaded :=
          decide ((assignments.getD j default).workload + pm.acuity >
            (assignments.getD j default).maxWorkload) ||
          decide (((assignments.getD j default).patients.length : Int) + 1 >
            (assignments.getD j default).maxPatients),
        alert :=
          if (assignments.getD j default).workload + pm.acuity >
              (assignments.getD j default).maxWorkload then "Workload too high!"
          else if ((assignments.getD j default).patients.length : Int) + 1 >
              (assignments.getD j default).maxPatients then "Too many patients!"
          else "" } := by
    unfold applySuggestionElem
    rw [htgt, if_neg hne, if_pos rfl, hfind]
    have hpm' : List.find? (fun p => decide (p.id = sg.patientId))
        ((assignments[i]?).getD default).patients = some pm := by
      simpa [List.getD] using hpm
    simp [hpm', htgt]
    simpa [List.getD] using htgt.symm
  refine ⟨by simp [applySuggestion], ?_, ?_, ?_, ?_⟩
  · rw [helem i hi, hieq]
    intro q hq
    simpa using (List.mem_filter.mp hq).2
  · rw [helem j hj, hjeq]
    simp
  · rw [helem i hi, helem j hj, hieq, hjeq]
    simp only []
    ring
  · intro k hk hkf hkt
    rw [helem k hk]
    unfold applySuggestionElem
    rw [if_neg hkf, if_neg hkt]

/-- The patient moved in the C4 witness instance. -/
def movedPatient : Patient :=
  { id := "p-M", name := "Moved", acuity := 3, condition := "Stable",
    requiredSkills := ["ER"], unit := "ER" }

/-- A second patient that stays with the source in the C4 witness. -/
def stayingPatient : Patient :=
  { id := "p-S", name := "Staying", acuity := 2, condition := "Stable",
    requiredSkills := ["ER"], unit := "ER" }

/-- The assignment list of the C4 witness instance. -/
def moveAssignments : List Assignment := [
  { nurseId := "nurse-A", nurseName := "Nurse A", unit := "ER",
    qualifications := ["ER"], patients := [movedPatient, stayingPatient],
    workload := 5, maxWorkload := 8, maxPatients := 4, isOverloaded := false,
    alert := "", shift := morningShift },
  { nurseId := "nurse-B", nurseName := "Nurse B", unit := "ER",
    qualifications := ["ER"], patients := [], workload := 0, maxWorkload := 8,
    maxPatients := 4, isOverloaded := false, alert := "", shift := morningShift },
  { nurseId := "nurse-C", nurseName := "Nurse C", unit := "ICU",
    qualifications := ["ICU"], patients := [], workload := 0, maxWorkload := 8,
    maxPatients := 4, isOverloaded := false, alert := "", shift := morningShift }]

/-- The suggestion of the C4 witness instance. -/
def moveSuggestion : RebalancingSuggestion :=
  { fromNurseId := "nurse-A", fromNurseName := "Nurse A",
    toNurseId := "nurse-B", toNurseName := "Nurse B",
    patientId := "p-M", patientName := "Moved",
    reason := "balance", expectedFromWorkload := 2, expectedToWorkload := 3,
    skillMatch := true }

/-- Witness for C4 at the concrete three-nurse instance. -/
theorem applySuggestion_moves_patient_witness :
    (applySuggestion moveAssignments moveSuggestion).length =
      moveAssignments.length ∧
    (∀ q ∈ ((applySuggestion moveAssignments moveSuggestion).getD 0
        default).patients, ¬ q.id = moveSuggestion.patientId) ∧
    movedPatient ∈ ((applySuggestion moveAssignments moveSuggestion).getD 1
        default).patients ∧
    ((applySuggestion moveAssignments moveSuggestion).getD 0 default).workload +
        ((applySuggestion moveAssignments moveSuggestion).getD 1 default).workload =
      (moveAssignments.getD 0 default).workload +
        (moveAssignments.getD 1 default).workload ∧
    (∀ k, k < moveAssignments.length →
      ¬ (moveAssignments.getD k default).nurseId = moveSuggestion.fromNurseId →
      ¬ (moveAssignments.getD k default).nurseId = moveSuggestion.toNurseId →
      (applySuggestion moveAssignments moveSuggestion).getD k default =
        moveAssignments.getD k default) :=
  applySuggestion_moves_patient moveAssignments moveSuggestion 0 1 movedPatient
    (by decide) (by decide) (by with_unfolding_all decide)
    (by with_unfolding_all decide) (by with_unfolding_all decide)
    (by with_unfolding_all decide) (by with_unfolding_all decide)
    (by with_unfolding_all decide)

/-! ## Claim C6: the auto-apply count and threshold schedule -/

/-- A conditional fold equals the plain fold over the filtered list when the
condition only looks at the element. -/
theorem foldl_if_eq_filter {α β : Type} (p : β → Prop) [DecidablePred p]
    (g : α → β → α) (l : List β) (a : α) :
    l.foldl (fun acc x => if p x then g acc x else acc) a =
      (l.filter (fun x => decide (p x))).foldl g a := by
  induction l generalizing a with
  | nil => rfl
  | cons b t ih =>
    by_cases hb : p b
    · simp [List.filter_cons, hb, ih]
    · simp [List.filter_cons, hb, ih]

/-- The convergence factor is 1 from tick 20 on. -/
theorem tickConvergenceFactor_of_ge (t : Nat) (ht : 20 ≤ t) :
    tickConvergenceFactor t = 1 := by
  unfold tickConvergenceFactor
  refine min_eq_right ?_
  rw [le_div_iff₀ (by norm_num : (0 : ℚ) < 20)]
  norm_num
  exact_mod_cast ht

/-- The convergence factor stays within `[0, 1]`. -/
theorem tickConvergenceFactor_bounds (t : Nat) :
    0 ≤ tickConvergenceFactor t ∧ tickConvergenceFactor t ≤ 1 := by
  unfold tickConvergenceFactor
  constructor
  · exact le_min (by positivity) (by norm_num)
  · exact min_le_right _ _

/-- C6: for every tick on a running state with new tick number
`t = tick + 1` and convergence factor `f = min(t/20, 1)`, the stored
assignments are obtained by folding the engine applier over exactly those of
the first `ceil(1 + 2f)` suggestions (in output order) whose
source/target expected-workload gap exceeds `3 - 2f`; the count formula
gives 1 at tick 0, is 3 from tick 20 on and always lies in `[1, 3]`, and the
threshold formula gives 3 at tick 0 and 1 from tick 20 on. -/
theorem auto_apply_schedule (s : SimulationState) (o : RandomSource)
    (h : s.isRunning = true) :
    (runSimulationTick s o).assignments =
      (((tickSuggestPairOf s.patients (s.tick + 1) o).1.take
            (tickApplyCount (s.tick + 1))).filter
          (fun sg => decide (suggestionGapExceeds sg (s.tick + 1)))).foldl
        (fun acc sg =>
          applyRebalancingSuggestion acc sg.fromNurseId sg.toNurseId sg.patientId)
        (tickSuggestPairOf s.patients (s.tick + 1) o).2 ∧
    tickApplyCount 0 = 1 ∧
    (∀ t, 20 ≤ t → tickApplyCount t = 3) ∧
    (∀ t, 1 ≤ tickApplyCount t ∧ tickApplyCount t ≤ 3) ∧
    tickThreshold 0 = 3 ∧
    (∀ t, 20 ≤ t → tickThreshold t = 1) := by
  refine ⟨?_, by with_unfolding_all decide, ?_, ?_, ?_, ?_⟩
  · simp only [runSimulationTick, h, if_true]
    unfold tickRebalancedOf
    exact foldl_if_eq_filter _ _ _ _
  · intro t ht
    unfold tickApplyCount
    rw [tickConvergenceFactor_of_ge t ht]
    norm_num
    rfl
  · intro t
    obtain ⟨h0, h1⟩ := tickConvergenceFactor_bounds t
    unfold tickApplyCount
    have hlo : (1 : ℤ) ≤ Int.ceil ((1 : ℚ) + tickConvergenceFactor t * 2) := by
      have : (1 : ℚ) ≤ (1 : ℚ) + tickConvergenceFactor t * 2 := by nlinarith
      calc (1 : ℤ) = Int.ceil (1 : ℚ) := by norm_num
        _ ≤ _ := Int.ceil_mono this
    have hhi : Int.ceil ((1 : ℚ) + tickConvergenceFactor t * 2) ≤ 3 := by
      have : (1 : ℚ) + tickConvergenceFactor t * 2 ≤ 3 := by nlinarith
      calc Int.ceil ((1 : ℚ) + tickConvergenceFactor t * 2)
          ≤ Int.ceil (3 : ℚ) := Int.ceil_mono this
        _ = 3 := by norm_num
    omega
  · with_unfolding_all decide
  · intro t ht
    unfold tickThreshold
    rw [tickConvergenceFactor_of_ge t ht]
    norm_num

/-- Witness for C6 at a concrete running state (a fresh initialization with
four patients) and oracle. -/
theorem auto_apply_schedule_witness :
    (runSimulationTick (initializeSimulation 4 ⟨fun _ => 1/2, 0⟩)
        ⟨fun _ => 1/2, 0⟩).assignments =
      (((tickSuggestPairOf (initializeSimulation 4 ⟨fun _ => 1/2, 0⟩).patients
            ((initializeSimulation 4 ⟨fun _ => 1/2, 0⟩).tick + 1)
            ⟨fun _ => 1/2, 0⟩).1.take
          (tickApplyCount ((initializeSimulation 4 ⟨fun _ => 1/2, 0⟩).tick + 1))).filter
          (fun sg => decide (suggestionGapExceeds sg
            ((initializeSimulation 4 ⟨fun _ => 1/2, 0⟩).tick + 1)))).foldl
        (fun acc sg =>
          applyRebalancingSuggestion acc sg.fromNurseId sg.toNurseId sg.patientId)
        (tickSuggestPairOf (initializeSimulation 4 ⟨fun _ => 1/2, 0⟩).patients
          ((initializeSimulation 4 ⟨fun _ => 1/2, 0⟩).tick + 1)
          ⟨fun _ => 1/2, 0⟩).2 ∧
    tickApplyCount 0 = 1 ∧
    (∀ t, 20 ≤ t → tickApplyCount t = 3) ∧
    (∀ t, 1 ≤ tickApplyCount t ∧ tickApplyCount t ≤ 3) ∧
    tickThreshold 0 = 3 ∧
    (∀ t, 20 ≤ t → tickThreshold t = 1) :=
  auto_apply_schedule (initializeSimulation 4 ⟨fun _ => 1/2, 0⟩)
    ⟨fun _ => 1/2, 0⟩ rfl

/-! ## Claim C9: staff reassignment never touches the module roster and
does not accumulate across ticks -/

/-- A staff member with the `unit` field blanked: the projection on which
`reassignStaffToUnits` must agree with the static roster. -/
def staffSansUnit (n : StaffMember) : StaffMember := { n with unit := "" }

/-- Setting a slot to a unit-modified copy of itself does not change the
unit-blanked view of the list. -/
theorem map_sansUnit_set (l : List StaffMember) (i : Nat) (u : String) :
    (l.set i { l.getD i default with unit := u }).map staffSansUnit =
      l.map staffSansUnit := by
  induction l generalizing i with
  | nil => rfl
  | cons a t ih =>
    cases i with
    | zero =>
      simp only [List.getD_cons_zero, List.set_cons_zero, List.map_cons]
      refine congrArg (fun x => x :: t.map staffSansUnit) ?_
      cases a
      rfl
    | succ i =>
      simp only [List.getD_cons_succ, List.set_cons_succ, List.map_cons]
      exact congrArg (fun x => staffSansUnit a :: x) (ih i)

/-- The donor scan changes at most one `unit` field. -/
theorem reassignScanDonors_frame (patients : List Patient) (unit : String)
    (rest : List String) (st : ReassignState)
    (h : st.staff.map staffSansUnit = STATIC_STAFF.map staffSansUnit) :
    (reassignScanDonors patients unit st rest).staff.map staffSansUnit =
      STATIC_STAFF.map staffSansUnit := by
  induction rest generalizing st with
  | nil => exact h
  | cons ou rest ih =>
    unfold reassignScanDonors
    simp only []
    repeat' split
    all_goals first
      | exact h
      | exact ih st h
      | (simp only []; rw [map_sansUnit_set]; exact h)

/-- C9: (a) for every patient list, `reassignStaffToUnits` returns a list
agreeing with `STATIC_STAFF` on every field except `unit` (it works on fresh
copies; in the embedding the module constant is read anew on every call, so
the roster itself cannot change and reassignments cannot accumulate across
ticks); and (b) a tick's result does not depend on the previous tick's
assignments at all — two running states with the same patients, tick counter
and history produce identical tick results even with entirely different
assignment lists. -/
theorem reassign_frame_and_tick_independence :
    (∀ (patients : List Patient),
      (reassignStaffToUnits patients).map staffSansUnit =
        STATIC_STAFF.map staffSansUnit) ∧
    (∀ (s₁ s₂ : SimulationState) (o : RandomSource),
      s₁.patients = s₂.patients → s₁.tick = s₂.tick →
      s₁.workloadHistory = s₂.workloadHistory →
      s₁.isRunning = true → s₂.isRunning = true →
      runSimulationTick s₁ o = runSimulationTick s₂ o) := by
  constructor
  · intro patients
    unfold reassignStaffToUnits
    have : ∀ (units : List String) (st : ReassignState),
        st.staff.map staffSansUnit = STATIC_STAFF.map staffSansUnit →
        ((units.foldl (reassignUnitStep patients) st).staff.map staffSansUnit =
          STATIC_STAFF.map staffSansUnit) := by
      intro units
      induction units with
      | nil => intro st h; exact h
      | cons u rest ih =>
        intro st h
        refine ih _ ?_
        unfold reassignUnitStep
        simp only []
        repeat' split
        all_goals first
          | exact h
          | exact reassignScanDonors_frame patients u SIM_UNITS st h
    exact this SIM_UNITS _ rfl
  · intro s₁ s₂ o hp ht hh h1 h2
    simp only [runSimulationTick, h1, h2, if_true, hp, ht, hh]

/-- Witness for C9: the independence conjunct instantiated at two concrete
running states that differ in their assignment lists and lastUpdate stamps. -/
theorem reassign_frame_and_tick_independence_witness :
    runSimulationTick
      { patients := [tiePatient], assignments := [], lastUpdate := 5,
        tick := 3, isRunning := true, workloadHistory := [] }
      ⟨fun _ => 1/2, 0⟩ =
    runSimulationTick
      { patients := [tiePatient], assignments := moveAssignments,
        lastUpdate := 9, tick := 3, isRunning := true, workloadHistory := [] }
      ⟨fun _ => 1/2, 0⟩ :=
  reassign_frame_and_tick_independence.2 _ _ ⟨fun _ => 1/2, 0⟩ rfl rfl rfl rfl rfl
